import Mathlib

/-!
Verification of the MediaMath/gremlin Go driver against its specification.

The Go source is shallowly embedded: pure computations become Lean functions,
the effectful socket/environment boundaries become explicit parameters
(a list of network events for the reply stream, lookup functions for the
process environment, outcome functions for dials and writes).  Definitions
follow the Go source (`gremlin.go`, `gremlin_tracer.go`); the few entities
that the source only declares or imports (status-code constants, the
status-message table, the envelope structs, `net/url` parsing and the
tracing context helpers) are modelled from the specification and marked as
such in their doc comments.
-/

namespace Gremlin

/-- Characters of a string with surrounding Unicode whitespace removed, the
model of Go `strings.TrimSpace`. -/
def trimChars (cs : List Char) : List Char :=
  ((cs.dropWhile Char.isWhitespace).reverse.dropWhile Char.isWhitespace).reverse

/-- String form of `trimChars`. -/
def trimString (s : String) : String :=
  (trimChars s.toList).asString

/-- Accumulating worker for `splitOnComma`. -/
def splitOnCommaAux : List Char → List Char → List String → List String
  | [], cur, acc => acc ++ [cur.reverse.asString]
  | c :: rest, cur, acc =>
    if c = ',' then splitOnCommaAux rest [] (acc ++ [cur.reverse.asString])
    else splitOnCommaAux rest (c :: cur) acc

/-- Model of Go `strings.Split(s, ",")`: the comma-separated pieces of `s`,
always at least one piece. -/
def splitOnComma (s : String) : List String :=
  splitOnCommaAux s.toList [] []

/-- Pieces joined with commas, the string built by Go `json.Marshal` between
the brackets of an array of raw messages. -/
def intercalateComma : List String → String
  | [] => ""
  | [x] => x
  | x :: xs => x ++ "," ++ intercalateComma xs

/-- UTF-8 bytes of one character (the Go `[]byte(string)` conversion,
per the UTF-8 encoding rules). -/
def utf8BytesChar (c : Char) : List Nat :=
  let n := c.toNat
  if n < 128 then [n]
  else if n < 2048 then [192 + n / 64, 128 + n % 64]
  else if n < 65536 then [224 + n / 4096, 128 + n / 64 % 64, 128 + n % 64]
  else [240 + n / 262144, 128 + n / 4096 % 64, 128 + n / 64 % 64, 128 + n % 64]

/-- UTF-8 bytes of a string, the model of Go `[]byte(s)`. -/
def utf8Bytes (s : String) : List Nat :=
  (s.toList.map utf8BytesChar).flatten

/-- The standard base64 alphabet used by Go `base64.StdEncoding`. -/
def base64Chars : List Char :=
  "ABCDEFGHIJKLMNOPQRSTUVWXYZabcdefghijklmnopqrstuvwxyz0123456789+/".toList

/-- Digit `n` of the standard base64 alphabet. -/
def base64Digit (n : Nat) : Char :=
  base64Chars.getD n '='

/-- Model of Go `base64.StdEncoding.EncodeToString` on a byte list
(bytes are `Nat` values below 256). -/
def base64Encode : List Nat → String
  | [] => ""
  | [a] =>
    String.mk [base64Digit (a / 4), base64Digit (a % 4 * 16), '=', '=']
  | [a, b] =>
    String.mk [base64Digit (a / 4), base64Digit (a % 4 * 16 + b / 16),
      base64Digit (b % 16 * 4), '=']
  | a :: b :: c :: rest =>
    String.mk [base64Digit (a / 4), base64Digit (a % 4 * 16 + b / 16),
      base64Digit (b % 16 * 4 + c / 64), base64Digit (c % 64)] ++ base64Encode rest

/-- Splits a list into its leading elements and its last element. -/
def initAndLast : List Char → Option (List Char × Char)
  | [] => none
  | [c] => some ([], c)
  | c :: rest => (initAndLast rest).map (fun p => (c :: p.1, p.2))

/-- Splits the body of a JSON array at its top-level commas, tracking bracket
depth and string literals, accumulating the current element in reverse in
`cur`; fails on unbalanced closing brackets.  Worker for `unmarshalRawList`. -/
def splitTopJson : List Char → Nat → Bool → Bool → List Char → List String →
    Option (List String)
  | [], 0, false, _, cur, acc => some (((trimChars cur.reverse).asString :: acc).reverse)
  | [], _, _, _, _, _ => none
  | ch :: rest, depth, true, true, cur, acc =>
    splitTopJson rest depth true false (ch :: cur) acc
  | ch :: rest, depth, true, false, cur, acc =>
    if ch = '\\' then splitTopJson rest depth true true (ch :: cur) acc
    else if ch = '"' then splitTopJson rest depth false false (ch :: cur) acc
    else splitTopJson rest depth true false (ch :: cur) acc
  | ch :: rest, depth, false, _, cur, acc =>
    if ch = '"' then splitTopJson rest depth true false (ch :: cur) acc
    else if ch = '[' || ch = '{' then splitTopJson rest (depth + 1) false false (ch :: cur) acc
    else if ch = ']' || ch = '}' then
      match depth with
      | 0 => none
      | d + 1 => splitTopJson rest d false false (ch :: cur) acc
    else if ch = ',' && depth = 0 then
      splitTopJson rest 0 false false [] ((trimChars cur.reverse).asString :: acc)
    else splitTopJson rest depth false false (ch :: cur) acc

/-- Model of Go `json.Unmarshal(data, &items)` for `items []json.RawMessage`:
the element texts of a top-level JSON array, in order, each trimmed of
surrounding whitespace; `null` decodes to no items (Go leaves the slice nil);
anything that is not a JSON array fails.  Element interiors are kept verbatim
(compact JSON is assumed, as produced by a server's serializer). -/
def unmarshalRawList (s : String) : Option (List String) :=
  let t := trimChars s.toList
  if t = "null".toList then some []
  else
    match t with
    | '[' :: rest =>
      match initAndLast rest with
      | some (inner, ']') =>
        if (trimChars inner).isEmpty then some []
        else
          match splitTopJson inner 0 false false [] [] with
          | some elems => if elems.any (fun e => e = "") then none else some elems
          | none => none
      | _ => none
    | _ => none

/-- Model of Go `json.Marshal(dataItems)` for the accumulator
`dataItems []json.RawMessage` of `ReadResponse`: a nil slice marshals to the
JSON literal `null`, and inside `ReadResponse` the accumulator is nil exactly
when no item was ever appended to it, i.e. exactly when it is empty. -/
def marshalRawMessages (items : List String) : String :=
  if items.isEmpty then "null" else "[" ++ intercalateComma items ++ "]"

/-- Specification-side serialization: the given items rendered as a single
JSON array, which is what the specification asserts the batched result to be. -/
def specJsonArray (items : List String) : String :=
  "[" ++ intercalateComma items ++ "]"

/-- Modelled from the spec: the protocol status codes, declared outside this
file.  Success frame. -/
def StatusSuccess : Nat := 200

/-- Modelled from the spec: status code of a frame carrying no content. -/
def StatusNoContent : Nat := 204

/-- Modelled from the spec: status code of a paging frame carrying one batch
of a multi-frame result. -/
def StatusPartialContent : Nat := 206

/-- Modelled from the spec: the 407 authentication-challenge status
(the source comments on `AuthInfo` name 407 as the AUTHENTICATE status). -/
def StatusAuthenticate : Nat := 407

/-- Modelled from the spec: the status part of a decoded reply frame
(`res.Status.Code`, `res.Status.Message` in the source). -/
structure ResponseStatus where
  code : Nat
  message : String
deriving DecidableEq, Repr

/-- Modelled from the spec: the result part of a decoded reply frame;
`data` holds the raw bytes of `res.Result.Data` (a `json.RawMessage`). -/
structure ResponseResult where
  data : String
deriving DecidableEq, Repr

/-- Modelled from the spec: a decoded reply frame
`{requestId, status, result}` as consumed by `ReadResponse`. -/
structure Response where
  requestId : String
  status : ResponseStatus
  result : ResponseResult
deriving DecidableEq, Repr

/-- The pair of named Go return values `(data []byte, err error)` of
`ReadResponse`/`Exec`; `none` models a nil slice or a nil error. -/
structure GoRet where
  data : Option String
  err : Option String
deriving DecidableEq, Repr

/-- One event at the socket boundary, as seen by the session:
a read that fails (`recvErr`), a read whose bytes fail to unmarshal into a
`Response` (`recvBad`, carrying the decode error's message), a read yielding
a decoded frame (`recvFrame`), and for the authentication replay the outcome
of the next `WriteMessage` (`sendOk`/`sendErr`). -/
inductive NetEvent where
  | recvErr (msg : String)
  | recvBad (msg : String)
  | recvFrame (res : Response)
  | sendOk
  | sendErr (msg : String)
deriving DecidableEq, Repr

/-- `AuthInfo` from the source: SASL authentication data; `challengeId` is
the request identifier of the server's 407 challenge. -/
structure AuthInfo where
  challengeId : String
  user : String
  pass : String
deriving DecidableEq, Repr

/-- `OptAuth` from the source: a credential option mutating a draft
`AuthInfo` or failing; the Go pointer mutation is modelled by returning the
updated value. -/
def OptAuth : Type := AuthInfo → Except String AuthInfo

/-- The session state `ReadResponse` reads: the configured credential
options and the verbosity flag of the `GremlinConnection`. -/
structure Conn where
  auth : List OptAuth
  verboseLogging : Bool

/-- Worker for `NewAuthInfo`: applies the options in order to the draft. -/
def NewAuthInfoAux : AuthInfo → List OptAuth → Except String AuthInfo
  | a, [] => Except.ok a
  | a, op :: rest =>
    match op a with
    | Except.error e => Except.error e
    | Except.ok a2 => NewAuthInfoAux a2 rest

/-- `NewAuthInfo` from the source: folds the credential options over the
zero-valued draft; the first failing option aborts with its error (the Go
function then returns a nil `AuthInfo`, modelled by `Except.error`). -/
def NewAuthInfo (options : List OptAuth) : Except String AuthInfo :=
  NewAuthInfoAux ⟨"", "", ""⟩ options

/-- `OptAuthEnv` from the source: reads `GREMLIN_USER` and `GREMLIN_PASS`
through the given environment (`os.LookupEnv` is modelled by the `env`
function; `none` is an unset variable). -/
def OptAuthEnv (env : String → Option String) : OptAuth :=
  fun auth =>
    match env "GREMLIN_USER" with
    | none => Except.error "Variable GREMLIN_USER is not set"
    | some user =>
      match env "GREMLIN_PASS" with
      | none => Except.error "Variable GREMLIN_PASS is not set"
      | some pass => Except.ok { auth with user := user, pass := pass }

/-- `OptAuthUserPass` from the source: sets the credentials directly. -/
def OptAuthUserPass (user pass : String) : OptAuth :=
  fun auth => Except.ok { auth with user := user, pass := pass }

/-- Modelled from the spec: the argument struct of a request envelope;
the authentication replay fills only the SASL credential argument, the
envelope's sole argument. -/
structure RequestArgs where
  sasl : String
deriving DecidableEq, Repr

/-- Modelled from the spec: a request envelope
`{request identifier, operation name, processor name, arguments}`,
declared outside this file and filled in by `Authenticate`. -/
structure Request where
  requestId : String
  processor : String
  op : String
  args : RequestArgs
deriving DecidableEq, Repr

/-- The SASL-PLAIN credential blob built in `Authenticate`: a zero byte,
the UTF-8 bytes of the user, a zero byte, the UTF-8 bytes of the password,
appended in that order. -/
def saslBlob (user pass : String) : List Nat :=
  (((([] : List Nat) ++ [0]) ++ utf8Bytes user) ++ [0]) ++ utf8Bytes pass

/-- The replay envelope built in `Authenticate`: the challenge's request
identifier, the fixed processor/operation pair, and the base64-encoded SASL
blob as sole argument. -/
def AuthRequest (auth : AuthInfo) (requestId : String) : Request :=
  { requestId := requestId
    processor := "trasversal"
    op := "authentication"
    args := { sasl := base64Encode (saslBlob auth.user auth.pass) } }

/-- Modelled from the spec: the fixed status-code-to-message table
(`ErrorMsg` in the repository, declared outside this file): known
non-success codes map to short human-readable descriptions, unknown codes
are absent. -/
def ErrorMsg (code : Nat) : Option String :=
  if code = 401 then some "unauthorized"
  else if code = 407 then some "authenticate challenge"
  else if code = 498 then some "malformed request"
  else if code = 499 then some "invalid request arguments"
  else if code = 500 then some "server error"
  else if code = 597 then some "script evaluation error"
  else if code = 598 then some "server timeout"
  else if code = 599 then some "serialization error"
  else none

/-- The error built in the default branch of `ReadResponse`'s switch:
unknown code yields the generic message; a known code yields the short
message, or, with verbose logging, the code, the short message and the
server's detail message. -/
def statusErrorText (c : Conn) (res : Response) : String :=
  match ErrorMsg res.status.code with
  | none => "An unknown error occured"
  | some msg =>
    if !c.verboseLogging then msg
    else
      toString res.status.code ++ " error: " ++ msg ++
        ". See additional details below:\nMessage: " ++ res.status.message

/-- Modelled from the spec: the error value produced by `encoding/json`
when a result fragment cannot be unmarshalled into `[]json.RawMessage`. -/
def jsonUnmarshalErrText : String := "json: cannot unmarshal result data"

/-- The read loop of `ReadResponse`, one step per socket event.
`dataItems` and `inBatchMode` are the loop's accumulator and flag.  A 407
frame re-enters the send/read path through `Authenticate`/`Exec`: the
credential options are applied, the replay envelope (`AuthRequest`) is
serialized and written — the write outcome is the next event — and the
reply stream of the replay is read by the same loop with fresh state.
An exhausted event list models a read that blocks forever (`none`); a send
event where a read is pending is a trace mismatch, also `none`. -/
def ReadResponseLoop (c : Conn) : List String → Bool → List NetEvent → Option GoRet
  | _, _, [] => none
  | _, _, NetEvent.recvErr m :: _ => some ⟨none, some m⟩
  | _, _, NetEvent.recvBad m :: _ => some ⟨none, some m⟩
  | _, _, NetEvent.sendOk :: _ => none
  | _, _, NetEvent.sendErr _ :: _ => none
  | dataItems, inBatchMode, NetEvent.recvFrame res :: rest =>
    if res.status.code = StatusNoContent then some ⟨none, none⟩
    else if res.status.code = StatusAuthenticate then
      match NewAuthInfo c.auth with
      | Except.error e => some ⟨none, some e⟩
      | Except.ok a =>
        let _req := AuthRequest a res.requestId
        match rest with
        | NetEvent.sendOk :: rest2 => ReadResponseLoop c [] false rest2
        | NetEvent.sendErr m :: _ => some ⟨none, some m⟩
        | _ => none
    else if res.status.code = StatusPartialContent then
      match unmarshalRawList res.result.data with
      | none => some ⟨none, some jsonUnmarshalErrText⟩
      | some items => ReadResponseLoop c (dataItems ++ items) true rest
    else if res.status.code = StatusSuccess then
      if inBatchMode then
        match unmarshalRawList res.result.data with
        | none => some ⟨none, some jsonUnmarshalErrText⟩
        | some items => some ⟨some (marshalRawMessages (dataItems ++ items)), none⟩
      else some ⟨some res.result.data, none⟩
    else some ⟨none, some (statusErrorText c res)⟩

/-- `ReadResponse` from the source: runs the read loop with an empty
accumulator and batching off. -/
def ReadResponse (c : Conn) (events : List NetEvent) : Option GoRet :=
  ReadResponseLoop c [] false events

/-- The mutable socket handle of a `GremlinConnection`, the part of the
session state that `Reconnect` and the write step of `Exec` touch.  `σ` is
the abstract type of a live websocket; `ws = none` is a nil `*websocket.Conn`. -/
structure ConnState (σ : Type) where
  ws : Option σ
deriving DecidableEq, Repr

/-- `Reconnect` from the source: dials the address (`dial` models
`websocket.Dialer.Dial`, which returns a nil connection together with the
error when it fails), assigns the result to `c.Ws` unconditionally, and
returns the dial error.  On failure the session is left with a nil socket. -/
def Reconnect {σ : Type} (dial : String → Except String σ) (_c : ConnState σ)
    (urlStr : String) : ConnState σ × Option String :=
  match dial urlStr with
  | Except.ok w => (⟨some w⟩, none)
  | Except.error e => (⟨none⟩, some e)

/-- Outcome of one `Exec` call at the socket: either the Go return pair, or
the runtime fault raised when `WriteMessage` is invoked on a nil
`*websocket.Conn` (the method dereferences its receiver). -/
inductive ExecOutcome where
  | ret (r : GoRet)
  | nilDeref
deriving DecidableEq, Repr

/-- Whether an `Exec` outcome is a returned non-nil error. -/
def ExecOutcome.isErrRet : ExecOutcome → Bool
  | ExecOutcome.ret ⟨_, some _⟩ => true
  | _ => false

/-- The socket part of `Exec` from the source, after the envelope has been
serialized: `WriteMessage` on the session's socket (a nil socket faults),
a write error is returned as `(nil, err)`, and a successful write hands over
to `ReadResponse`, whose result is modelled by `readResult`. -/
def ExecOnSocket {σ : Type} (c : ConnState σ) (writeErr : σ → Option String)
    (readResult : σ → GoRet) : ExecOutcome :=
  match c.ws with
  | none => ExecOutcome.nilDeref
  | some w =>
    match writeErr w with
    | some e => ExecOutcome.ret ⟨none, some e⟩
    | none => ExecOutcome.ret (readResult w)

/-- `ServerAddress`: the fields of a parsed `*url.URL` that this driver
reads (`u.Host` is the host-with-port dialed by `CreateConnection`). -/
structure URL where
  scheme : String
  host : String
deriving DecidableEq, Repr

/-- Characters after the last colon of a host-port string, `none` when it
has no colon. -/
def afterLastColon : List Char → Option (List Char)
  | [] => none
  | c :: rest =>
    match afterLastColon rest with
    | some t => some t
    | none => if c = ':' then some rest else none

/-- Splits a character list at the first occurrence of the `://` scheme
separator. -/
def breakOnSchemeSep : List Char → Option (List Char × List Char)
  | [] => none
  | ':' :: '/' :: '/' :: rest => some ([], rest)
  | c :: rest => (breakOnSchemeSep rest).map (fun p => (c :: p.1, p.2))

/-- Modelled from the spec: `net/url.Parse` (external collaborator) at the
boundary this driver uses, for bracket-free `scheme://host:port` addresses:
an address without a scheme separator parses as an opaque reference, an
empty scheme before `://` fails with a missing-scheme error, and a
non-numeric port after the last colon of the host fails with an invalid-port
error (an absent or empty port is accepted). -/
def urlParse (s : String) : Except String URL :=
  match breakOnSchemeSep s.toList with
  | none => Except.ok ⟨"", s⟩
  | some (schemeCs, hostCs) =>
    if schemeCs.isEmpty then Except.error "missing protocol scheme"
    else
      match afterLastColon hostCs with
      | none => Except.ok ⟨schemeCs.asString, hostCs.asString⟩
      | some port =>
        if port.all Char.isDigit then Except.ok ⟨schemeCs.asString, hostCs.asString⟩
        else Except.error "invalid port"

/-- The explicit-address loop of `NewCluster`: parses each supplied string
and appends it to the registry; the first parse error returns with the
registry holding the addresses appended so far. -/
def NewClusterExplicitAux (parse : String → Except String URL) :
    List URL → List String → List URL × Option String
  | acc, [] => (acc, none)
  | acc, v :: rest =>
    match parse v with
    | Except.error e => (acc, some e)
    | Except.ok u => NewClusterExplicitAux parse (acc ++ [u]) rest

/-- The loop of `SplitServers`: trims each comma-separated entry, parses it,
and appends it to its result list; the first parse error returns with the
entries parsed so far. -/
def SplitServersAux (parse : String → Except String URL) :
    List URL → List String → List URL × Option String
  | acc, [] => (acc, none)
  | acc, v :: rest =>
    match parse (trimString v) with
    | Except.error e => (acc, some e)
    | Except.ok u => SplitServersAux parse (acc ++ [u]) rest

/-- `SplitServers` from the source: splits the connection string at commas
and parses each trimmed entry (the fewer-than-one-piece guard is kept from
the source although `strings.Split` always yields at least one piece). -/
def SplitServers (parse : String → Except String URL) (connString : String) :
    List URL × Option String :=
  let serverStrings := splitOnComma connString
  if serverStrings.length < 1 then
    ([], some "Connection string is not in expected format. An example of the expected format is 'ws://server1:8182, ws://server2:8182'.")
  else SplitServersAux parse [] serverStrings

/-- `NewCluster` from the source: clears the process-wide registry
(`servers = nil`), then either parses the explicit addresses or, when none
are given, splits the trimmed `GREMLIN_SERVERS` environment value
(`gremlinServersEnv` models `os.Getenv`, empty when unset).  Returns the
registry value left behind and the error. -/
def NewCluster (parse : String → Except String URL) (gremlinServersEnv : String)
    (s : List String) : List URL × Option String :=
  if s.isEmpty then
    let connString := trimString gremlinServersEnv
    if connString = "" then
      ([], some "No servers set. Configure servers to connect to using the GREMLIN_SERVERS environment variable.")
    else SplitServers parse connString
  else NewClusterExplicitAux parse [] s

/-- The error returned by `CreateConnection` when no candidate is reachable. -/
def noReachableErr : String :=
  "Could not establish connection. Please check your connection string and ensure at least one server is up."

/-- `CreateConnection` from the source: walks the registry in order and
dials each candidate (`dial` models `net.DialTimeout("tcp", s.Host, 1s)`;
`none` is a failed dial).  The first successful dial is returned with its
address; when every candidate failed, the no-reachable-server error. -/
def CreateConnection {α : Type} (dial : URL → Option α) :
    List URL → Option α × Option URL × Option String
  | [] => (none, none, some noReachableErr)
  | s :: rest =>
    match dial s with
    | none => CreateConnection dial rest
    | some c => (some c, some s, none)

/-- A Go error as classified by `MaintainConnection`'s type assertion:
either a `*net.OpError` (a transport-level network error) or any other
error value. -/
inductive GoError where
  | netOp (msg : String)
  | plain (msg : String)
deriving DecidableEq, Repr

/-- The `err.(*net.OpError)` type assertion of `MaintainConnection`. -/
def isNetError : GoError → Bool
  | GoError.netOp _ => true
  | GoError.plain _ => false

/-- `MaintainConnection` from the source: runs the probe query
`g.V().limit(0)` (`execQuery` models `c.ExecQuery`'s error result) and
returns nil on success; a non-network probe error is returned unchanged
without reconnecting; a network probe error triggers exactly one
`Reconnect` (`reconnect` models its error result) whose outcome is
returned.  The second component counts the `Reconnect` calls made. -/
def MaintainConnection (execQuery : String → Option GoError)
    (reconnect : String → Option GoError) (urlStr : String) :
    Option GoError × Nat :=
  match execQuery "g.V().limit(0)" with
  | none => (none, 0)
  | some e =>
    if isNetError e then
      match reconnect urlStr with
      | some e2 => (some e2, 1)
      | none => (none, 1)
    else (some e, 0)

/-- A tracing span as the decorator builds it: its operation name and the
operation name of its parent, when a parent span was present in the
caller's context. -/
structure Span where
  opName : String
  parentOp : Option String
deriving DecidableEq, Repr

/-- Modelled from the spec: the call context, carrying an optional parent
span (`opentracing.SpanFromContext`) and an optional operation-name
override (`OpNameFromContext`). -/
structure Ctx where
  span : Option Span
  opName : Option String
deriving DecidableEq, Repr

/-- Modelled from the spec: `CoalesceStrings`, declared outside this file:
prefers the first string unless it is empty. -/
def CoalesceStrings (a b : String) : String :=
  if a = "" then b else a

/-- Modelled from the spec: `OpNameFromContext`, declared outside this
file: the operation-name override carried in the context, or the empty
string when absent. -/
def OpNameFromContext (ctx : Ctx) : String :=
  ctx.opName.getD ""

/-- `opentracing.SpanFromContext` at this model's boundary. -/
def SpanFromContext (ctx : Ctx) : Option Span :=
  ctx.span

/-- `StartSpanFromParent` from the source: starts a span named `method`,
as a child of the context's span when one is present, and returns the span
together with the context augmented with it. -/
def StartSpanFromParent (ctx : Ctx) (method : String) : Span × Ctx :=
  let parent := SpanFromContext ctx
  let span : Span := ⟨method, parent.map Span.opName⟩
  (span, ⟨some span, ctx.opName⟩)

/-- The wrapped component behind the tracing decorator: the session call
surface `{ExecQueryF, StartMonitor, Close}`, each returning its response
and error (durations are modelled as `Nat`). -/
structure Gremlin_i where
  execQueryF : Ctx → String → String × Option String
  startMonitor : Ctx → Nat → Option String
  close : Ctx → Option String

/-- `GremlinTracer.ExecQueryF` from the source: resolves the operation
name, starts (and, via `defer`, finishes) a span — discarding the augmented
context — and returns the inner component's result on the original
context.  The finished span is returned alongside as the observability
side-channel. -/
def TracerExecQueryF (next : Gremlin_i) (ctx : Ctx) (q : String) :
    (String × Option String) × Span :=
  let method := CoalesceStrings (OpNameFromContext ctx) "Gremlin.ExecQueryF"
  let sp := StartSpanFromParent ctx method
  (next.execQueryF ctx q, sp.1)

/-- `GremlinTracer.StartMonitor` from the source, same shape as
`TracerExecQueryF`. -/
def TracerStartMonitor (next : Gremlin_i) (ctx : Ctx) (interval : Nat) :
    Option String × Span :=
  let method := CoalesceStrings (OpNameFromContext ctx) "Gremlin.StartMonitor"
  let sp := StartSpanFromParent ctx method
  (next.startMonitor ctx interval, sp.1)

/-- `GremlinTracer.Close` from the source, same shape as
`TracerExecQueryF`. -/
def TracerClose (next : Gremlin_i) (ctx : Ctx) : Option String × Span :=
  let method := CoalesceStrings (OpNameFromContext ctx) "Gremlin.Close"
  let sp := StartSpanFromParent ctx method
  (next.close ctx, sp.1)

/-- Specification-side predicate for stating the batching claim: the given
responses are all partial-content frames and their result fragments decode,
in order, to the concatenated item list `its`. -/
def PartialFramesDecode : List Response → List String → Prop
  | [], its => its = []
  | r :: rs, its =>
    r.status.code = StatusPartialContent ∧
      ∃ i tail, unmarshalRawList r.result.data = some i ∧
        PartialFramesDecode rs tail ∧ its = i ++ tail

/-- Specification-side predicate for stating the cluster claim: every
string of the list parses successfully, to the given addresses in order. -/
def ParseAllOk (parse : String → Except String URL) : List String → List URL → Prop
  | [], us => us = []
  | v :: rest, us =>
    ∃ u tail, parse v = Except.ok u ∧ ParseAllOk parse rest tail ∧ us = u :: tail

/-- Helper: unfolding the read loop at a success frame. -/
theorem readLoop_success (c : Conn) (d : List String) (b : Bool)
    (res : Response) (rest : List NetEvent)
    (h : res.status.code = StatusSuccess) :
    ReadResponseLoop c d b (NetEvent.recvFrame res :: rest) =
      (if b then
        match unmarshalRawList res.result.data with
        | none => some ⟨none, some jsonUnmarshalErrText⟩
        | some items => some ⟨some (marshalRawMessages (d ++ items)), none⟩
      else some ⟨some res.result.data, none⟩) := by
  cases rest with
  | nil =>
    simp only [ReadResponseLoop, h, StatusSuccess, StatusNoContent,
      StatusAuthenticate, StatusPartialContent]
    rfl
  | cons ev2 rest2 =>
    cases ev2 <;>
      · simp only [ReadResponseLoop, h, StatusSuccess, StatusNoContent,
          StatusAuthenticate, StatusPartialContent]
        rfl

/-- Helper: unfolding the read loop at a partial-content frame. -/
theorem readLoop_partialFrame (c : Conn) (d : List String) (b : Bool)
    (res : Response) (rest : List NetEvent)
    (h : res.status.code = StatusPartialContent) :
    ReadResponseLoop c d b (NetEvent.recvFrame res :: rest) =
      (match unmarshalRawList res.result.data with
      | none => some ⟨none, some jsonUnmarshalErrText⟩
      | some items => ReadResponseLoop c (d ++ items) true rest) := by
  cases rest with
  | nil =>
    simp [ReadResponseLoop, h, StatusSuccess, StatusNoContent,
      StatusAuthenticate, StatusPartialContent]
    try rfl
  | cons ev2 rest2 =>
    cases ev2 <;>
      · simp [ReadResponseLoop, h, StatusSuccess, StatusNoContent,
          StatusAuthenticate, StatusPartialContent]
        try rfl

/-- Helper: unfolding the read loop at a no-content frame. -/
theorem readLoop_noContent (c : Conn) (d : List String) (b : Bool)
    (res : Response) (rest : List NetEvent)
    (h : res.status.code = StatusNoContent) :
    ReadResponseLoop c d b (NetEvent.recvFrame res :: rest) =
      some ⟨none, none⟩ := by
  cases rest with
  | nil =>
    simp [ReadResponseLoop, h, StatusNoContent]
  | cons ev2 rest2 =>
    cases ev2 <;> simp [ReadResponseLoop, h, StatusNoContent]

/-- Helper: unfolding the read loop at an error-status frame. -/
theorem readLoop_errStatus (c : Conn) (d : List String) (b : Bool)
    (res : Response) (rest : List NetEvent)
    (h1 : res.status.code ≠ StatusNoContent)
    (h2 : res.status.code ≠ StatusAuthenticate)
    (h3 : res.status.code ≠ StatusPartialContent)
    (h4 : res.status.code ≠ StatusSuccess) :
    ReadResponseLoop c d b (NetEvent.recvFrame res :: rest) =
      some ⟨none, some (statusErrorText c res)⟩ := by
  cases rest with
  | nil => simp [ReadResponseLoop, h1, h2, h3, h4]
  | cons ev2 rest2 => cases ev2 <;> simp [ReadResponseLoop, h1, h2, h3, h4]

/-- Helper: unfolding the read loop at an authentication challenge whose
credential options fail. -/
theorem readLoop_authFail (c : Conn) (d : List String) (b : Bool)
    (res : Response) (rest : List NetEvent) (e : String)
    (h : res.status.code = StatusAuthenticate)
    (ha : NewAuthInfo c.auth = Except.error e) :
    ReadResponseLoop c d b (NetEvent.recvFrame res :: rest) =
      some ⟨none, some e⟩ := by
  cases rest with
  | nil => simp [ReadResponseLoop, h, StatusAuthenticate, StatusNoContent, ha]
  | cons ev2 rest2 =>
    cases ev2 <;> simp [ReadResponseLoop, h, StatusAuthenticate, StatusNoContent, ha]

/-- Helper: unfolding the read loop at an authentication challenge whose
credential options succeed and whose replay write succeeds: the replay's
reply stream is read with fresh state. -/
theorem readLoop_authOk_sendOk (c : Conn) (d : List String) (b : Bool)
    (res : Response) (rest2 : List NetEvent) (a : AuthInfo)
    (h : res.status.code = StatusAuthenticate)
    (ha : NewAuthInfo c.auth = Except.ok a) :
    ReadResponseLoop c d b (NetEvent.recvFrame res :: NetEvent.sendOk :: rest2) =
      ReadResponseLoop c [] false rest2 := by
  simp [ReadResponseLoop, h, StatusAuthenticate, StatusNoContent, ha]

/-- Helper: after a successful credential configuration, a failing replay
write returns the write error. -/
theorem readLoop_authOk_sendErr (c : Conn) (d : List String) (b : Bool)
    (res : Response) (m : String) (rest2 : List NetEvent) (a : AuthInfo)
    (h : res.status.code = StatusAuthenticate)
    (ha : NewAuthInfo c.auth = Except.ok a) :
    ReadResponseLoop c d b
      (NetEvent.recvFrame res :: NetEvent.sendErr m :: rest2) =
      some ⟨none, some m⟩ := by
  simp [ReadResponseLoop, h, StatusAuthenticate, StatusNoContent, ha]

/-- Helper: after a successful credential configuration with no further
event, the replay write blocks the trace. -/
theorem readLoop_authOk_nil (c : Conn) (d : List String) (b : Bool)
    (res : Response) (a : AuthInfo)
    (h : res.status.code = StatusAuthenticate)
    (ha : NewAuthInfo c.auth = Except.ok a) :
    ReadResponseLoop c d b [NetEvent.recvFrame res] = none := by
  simp [ReadResponseLoop, h, StatusAuthenticate, StatusNoContent, ha]

/-- Helper: a read event where the replay write is pending is a trace
mismatch. -/
theorem readLoop_authOk_recvErrNext (c : Conn) (d : List String) (b : Bool)
    (res : Response) (m : String) (rest2 : List NetEvent) (a : AuthInfo)
    (h : res.status.code = StatusAuthenticate)
    (ha : NewAuthInfo c.auth = Except.ok a) :
    ReadResponseLoop c d b
      (NetEvent.recvFrame res :: NetEvent.recvErr m :: rest2) = none := by
  simp [ReadResponseLoop, h, StatusAuthenticate, StatusNoContent, ha]

/-- Helper: an undecodable-read event where the replay write is pending is
a trace mismatch. -/
theorem readLoop_authOk_recvBadNext (c : Conn) (d : List String) (b : Bool)
    (res : Response) (m : String) (rest2 : List NetEvent) (a : AuthInfo)
    (h : res.status.code = StatusAuthenticate)
    (ha : NewAuthInfo c.auth = Except.ok a) :
    ReadResponseLoop c d b
      (NetEvent.recvFrame res :: NetEvent.recvBad m :: rest2) = none := by
  simp [ReadResponseLoop, h, StatusAuthenticate, StatusNoContent, ha]

/-- Helper: a frame event where the replay write is pending is a trace
mismatch. -/
theorem readLoop_authOk_recvFrameNext (c : Conn) (d : List String) (b : Bool)
    (res res2 : Response) (rest2 : List NetEvent) (a : AuthInfo)
    (h : res.status.code = StatusAuthenticate)
    (ha : NewAuthInfo c.auth = Except.ok a) :
    ReadResponseLoop c d b
      (NetEvent.recvFrame res :: NetEvent.recvFrame res2 :: rest2) = none := by
  simp [ReadResponseLoop, h, StatusAuthenticate, StatusNoContent, ha]

/-- Helper: `CreateConnection` skips a block of unreachable candidates. -/
theorem createConnection_skipAll {α : Type} (dial : URL → Option α) :
    ∀ (pre rest : List URL), (∀ p ∈ pre, dial p = none) →
      CreateConnection dial (pre ++ rest) = CreateConnection dial rest
  | [], _, _ => rfl
  | p :: ps, rest, h => by
    have hp : dial p = none := h p (by simp)
    simp only [List.cons_append, CreateConnection, hp]
    exact createConnection_skipAll dial ps rest (fun q hq => h q (by simp [hq]))

/-- Helper: `CreateConnection` fails with the no-reachable-server error when
every candidate fails. -/
theorem createConnection_allFail {α : Type} (dial : URL → Option α) :
    ∀ (servers : List URL), (∀ s ∈ servers, dial s = none) →
      CreateConnection dial servers = (none, none, some noReachableErr)
  | [], _ => rfl
  | s :: ss, h => by
    have hs : dial s = none := h s (by simp)
    simp only [CreateConnection, hs]
    exact createConnection_allFail dial ss (fun q hq => h q (by simp [hq]))

/-- C7: for every reply stream whose first frame is a success frame (no
prior partial-content frame), `ReadResponse` returns that frame's
result-data bytes verbatim — no decoding, re-serialization or array
wrapping — and no error. -/
theorem C7_success_first_frame_verbatim (c : Conn) (res : Response)
    (rest : List NetEvent) (h : res.status.code = StatusSuccess) :
    ReadResponse c (NetEvent.recvFrame res :: rest) =
      some ⟨some res.result.data, none⟩ := by
  rw [ReadResponse, readLoop_success c [] false res rest h]
  rfl

/-- C7 witness: a concrete success-first stream; the payload's interior
whitespace is preserved, showing no re-serialization happens. -/
theorem C7_witness :
    ReadResponse ⟨[], false⟩
      [NetEvent.recvFrame ⟨"", ⟨200, ""⟩, ⟨"[1, 2]"⟩⟩] =
      some ⟨some "[1, 2]", none⟩ :=
  C7_success_first_frame_verbatim ⟨[], false⟩ ⟨"", ⟨200, ""⟩, ⟨"[1, 2]"⟩⟩ [] rfl

/-- C9: the tracing decorator returns, for each of the three decorated
methods and every input, exactly the response value and error produced by
the wrapped inner component on the same input, error or not. -/
theorem C9_tracer_transparent (next : Gremlin_i) (ctx : Ctx) (q : String)
    (interval : Nat) :
    (TracerExecQueryF next ctx q).1 = next.execQueryF ctx q ∧
    (TracerStartMonitor next ctx interval).1 = next.startMonitor ctx interval ∧
    (TracerClose next ctx).1 = next.close ctx :=
  ⟨rfl, rfl, rfl⟩

/-- C4: `MaintainConnection` returns success when the probe succeeds; on a
network probe error it calls `Reconnect` exactly once and returns its
outcome; on any other probe error it returns that error unchanged without
calling `Reconnect`. -/
theorem C4_maintain_connection_cases (execQuery : String → Option GoError)
    (reconnect : String → Option GoError) (urlStr : String) :
    (execQuery "g.V().limit(0)" = none →
      MaintainConnection execQuery reconnect urlStr = (none, 0)) ∧
    (∀ m, execQuery "g.V().limit(0)" = some (GoError.netOp m) →
      MaintainConnection execQuery reconnect urlStr = (reconnect urlStr, 1)) ∧
    (∀ m, execQuery "g.V().limit(0)" = some (GoError.plain m) →
      MaintainConnection execQuery reconnect urlStr =
        (some (GoError.plain m), 0)) := by
  refine ⟨fun h => by simp [MaintainConnection, h], fun m h => ?_,
    fun m h => by simp [MaintainConnection, h, isNetError]⟩
  simp only [MaintainConnection, h, isNetError, if_true]
  cases hr : reconnect urlStr <;> simp [hr]

/-- C4 witness: a network probe failure with a successful reconnect. -/
theorem C4_witness :
    MaintainConnection (fun _ => some (GoError.netOp "read: connection reset by peer"))
      (fun _ => none) "ws://h:8182" = (none, 1) :=
  (C4_maintain_connection_cases _ _ _).2.1 "read: connection reset by peer" rfl

/-- C3: under credentials configured by the session's options, the
authentication replay envelope carries exactly the challenge's request
identifier, the fixed authentication operation/processor pair, and as sole
argument the base64 encoding of zero byte, user bytes, zero byte, password
bytes, in that order. -/
theorem C3_auth_envelope (options : List OptAuth) (a : AuthInfo) (r : String)
    (_h : NewAuthInfo options = Except.ok a) :
    (AuthRequest a r).requestId = r ∧
    (AuthRequest a r).processor = "trasversal" ∧
    (AuthRequest a r).op = "authentication" ∧
    (AuthRequest a r).args =
      ⟨base64Encode ([0] ++ utf8Bytes a.user ++ [0] ++ utf8Bytes a.pass)⟩ := by
  refine ⟨rfl, rfl, rfl, ?_⟩
  simp [AuthRequest, saslBlob]

/-- C3 witness: explicit user/password credentials and a concrete
challenge identifier. -/
theorem C3_witness :
    NewAuthInfo [OptAuthUserPass "user" "pass"] = Except.ok ⟨"", "user", "pass"⟩ ∧
    (AuthRequest ⟨"", "user", "pass"⟩ "9f2c").args =
      ⟨base64Encode ([0] ++ utf8Bytes "user" ++ [0] ++ utf8Bytes "pass")⟩ :=
  ⟨rfl, (C3_auth_envelope [OptAuthUserPass "user" "pass"] ⟨"", "user", "pass"⟩
    "9f2c" rfl).2.2.2⟩

/-- C5: `CreateConnection` returns the first registry address whose dial
succeeds, together with its connection, skipping earlier failures without
error; and it returns the no-reachable-server error when (and only in the
case that) every candidate failed. -/
theorem C5_first_reachable (α : Type) (dial : URL → Option α)
    (servers : List URL) :
    (∀ pre s post c, servers = pre ++ s :: post → (∀ p ∈ pre, dial p = none) →
      dial s = some c →
      CreateConnection dial servers = (some c, some s, none)) ∧
    ((∀ s ∈ servers, dial s = none) →
      CreateConnection dial servers = (none, none, some noReachableErr)) := by
  constructor
  · intro pre s post c hsplit hpre hdial
    subst hsplit
    rw [createConnection_skipAll dial pre (s :: post) hpre]
    simp [CreateConnection, hdial]
  · exact createConnection_allFail dial servers

/-- C5 witness: the first address is unreachable, the second reachable;
the second is returned with its connection and no error. -/
theorem C5_witness :
    CreateConnection (fun u => if u.host = "b:8182" then some 1 else none)
      [⟨"ws", "a:8182"⟩, ⟨"ws", "b:8182"⟩] =
      (some 1, some ⟨"ws", "b:8182"⟩, none) :=
  (C5_first_reachable Nat _ _).1 [⟨"ws", "a:8182"⟩] ⟨"ws", "b:8182"⟩ [] 1 rfl
    (by decide) (by decide)

/-- Helper: the read loop in batching mode consumes decodable
partial-content frames and marshals the accumulated items at the final
success frame. -/
theorem readLoop_batch (c : Conn) :
    ∀ (ps : List Response) (acc its : List String) (sf : Response)
      (sIts : List String),
      PartialFramesDecode ps its → sf.status.code = StatusSuccess →
      unmarshalRawList sf.result.data = some sIts →
      ReadResponseLoop c acc true ((ps ++ [sf]).map NetEvent.recvFrame) =
        some ⟨some (marshalRawMessages (acc ++ its ++ sIts)), none⟩
  | [], acc, its, sf, sIts, hps, hsf, hdec => by
    have hits : its = [] := hps
    subst hits
    simp only [List.nil_append, List.map_cons, List.map_nil]
    rw [readLoop_success c acc true sf [] hsf]
    simp [hdec]
  | r :: rs, acc, its, sf, sIts, hps, hsf, hdec => by
    obtain ⟨hr, i, tail, hi, htail, hits⟩ := hps
    subst hits
    simp only [List.cons_append, List.map_cons]
    rw [readLoop_partialFrame c acc true r (((rs ++ [sf]).map NetEvent.recvFrame)) hr]
    simp only [hi]
    have := readLoop_batch c rs (acc ++ i) tail sf sIts htail hsf hdec
    rw [this]
    simp [List.append_assoc]

/-- C1 (amended): for N partial-content frames (N ≥ 1) followed by a
success frame, all decodable, `ReadResponse` returns without error the
frames' items concatenated in arrival order and re-marshalled — which is
the single JSON array of those items whenever at least one item was
decoded, and the JSON literal `null` (Go marshals the still-nil
accumulator) when every frame decoded to zero items. -/
theorem C1_batch_aggregation (c : Conn) (p : Response) (ps : List Response)
    (its : List String) (sf : Response) (sIts : List String)
    (hps : PartialFramesDecode (p :: ps) its)
    (hsf : sf.status.code = StatusSuccess)
    (hdec : unmarshalRawList sf.result.data = some sIts) :
    ReadResponse c (((p :: ps) ++ [sf]).map NetEvent.recvFrame) =
      some ⟨some (marshalRawMessages (its ++ sIts)), none⟩ ∧
    (its ++ sIts ≠ [] →
      marshalRawMessages (its ++ sIts) = specJsonArray (its ++ sIts)) := by
  constructor
  · obtain ⟨hp, i, tail, hi, htail, hits⟩ := hps
    subst hits
    rw [ReadResponse]
    simp only [List.cons_append, List.map_cons]
    rw [readLoop_partialFrame c [] false p (((ps ++ [sf]).map NetEvent.recvFrame)) hp]
    simp only [hi, List.nil_append]
    rw [readLoop_batch c ps i tail sf sIts htail hsf hdec]
  · intro hne
    simp [marshalRawMessages, specJsonArray, hne]

/-- C1 witness: one partial-content frame with two items, then a success
frame with one item; the result is the re-marshalled three-item batch. -/
theorem C1_witness :
    PartialFramesDecode [⟨"", ⟨206, ""⟩, ⟨"[1,2]"⟩⟩] ["1", "2"] ∧
    unmarshalRawList "[3]" = some ["3"] ∧
    ReadResponse ⟨[], false⟩
      ((([⟨"", ⟨206, ""⟩, ⟨"[1,2]"⟩⟩] : List Response) ++
        ([⟨"", ⟨200, ""⟩, ⟨"[3]"⟩⟩] : List Response)).map NetEvent.recvFrame) =
      some ⟨some (marshalRawMessages (["1", "2"] ++ ["3"])), none⟩ := by
  have hps : PartialFramesDecode [⟨"", ⟨206, ""⟩, ⟨"[1,2]"⟩⟩] ["1", "2"] :=
    ⟨rfl, ["1", "2"], [], rfl, rfl, rfl⟩
  exact ⟨hps, rfl,
    (C1_batch_aggregation ⟨[], false⟩ ⟨"", ⟨206, ""⟩, ⟨"[1,2]"⟩⟩ [] ["1", "2"]
      ⟨"", ⟨200, ""⟩, ⟨"[3]"⟩⟩ ["3"] hps rfl rfl).1⟩

/-- C1 counterexample: when the partial-content frame and the success frame
both decode to zero items, the code returns the bytes `null` — Go's
marshalling of the nil accumulator — which is not the concatenation
re-serialized as a single JSON array (that would be `[]`); the claim as
stated therefore fails on this input. -/
theorem C1_counterexample :
    ReadResponse ⟨[], false⟩
      [NetEvent.recvFrame ⟨"", ⟨206, ""⟩, ⟨"[]"⟩⟩,
       NetEvent.recvFrame ⟨"", ⟨200, ""⟩, ⟨"[]"⟩⟩] = some ⟨some "null", none⟩ ∧
    "null" ≠ specJsonArray [] := by
  exact ⟨rfl, by decide⟩

/-- C6: with the environment credential source and either required
variable unset, the credential options abort with a configuration error
(`NewAuthInfo` yields no `AuthInfo`), and on an authentication challenge
`ReadResponse` returns that error with nil data without consuming any
further network event — in particular no replay envelope is sent. -/
theorem C6_env_credentials_missing (env : String → Option String) (v : Bool)
    (res : Response) (rest : List NetEvent)
    (hcode : res.status.code = StatusAuthenticate)
    (hmiss : env "GREMLIN_USER" = none ∨ env "GREMLIN_PASS" = none) :
    ∃ e, NewAuthInfo [OptAuthEnv env] = Except.error e ∧
      ReadResponse ⟨[OptAuthEnv env], v⟩ (NetEvent.recvFrame res :: rest) =
        some ⟨none, some e⟩ := by
  cases hu : env "GREMLIN_USER" with
  | none =>
    refine ⟨"Variable GREMLIN_USER is not set", ?_, ?_⟩
    · simp [NewAuthInfo, NewAuthInfoAux, OptAuthEnv, hu]
    · rw [ReadResponse, readLoop_authFail _ [] false res rest _ hcode]
      simp [NewAuthInfo, NewAuthInfoAux, OptAuthEnv, hu]
  | some u =>
    have hp : env "GREMLIN_PASS" = none := by
      cases hmiss with
      | inl h => rw [h] at hu; cases hu
      | inr h => exact h
    refine ⟨"Variable GREMLIN_PASS is not set", ?_, ?_⟩
    · simp [NewAuthInfo, NewAuthInfoAux, OptAuthEnv, hu, hp]
    · rw [ReadResponse, readLoop_authFail _ [] false res rest _ hcode]
      simp [NewAuthInfo, NewAuthInfoAux, OptAuthEnv, hu, hp]

/-- C6 witness: an empty environment and a concrete 407 challenge with no
further events available: the configuration error is still returned. -/
theorem C6_witness :
    ∃ e, NewAuthInfo [OptAuthEnv (fun _ => none)] = Except.error e ∧
      ReadResponse ⟨[OptAuthEnv (fun _ => none)], false⟩
        [NetEvent.recvFrame ⟨"ch-1", ⟨407, ""⟩, ⟨""⟩⟩] = some ⟨none, some e⟩ :=
  C6_env_credentials_missing (fun _ => none) false ⟨"ch-1", ⟨407, ""⟩, ⟨""⟩⟩ []
    rfl (Or.inl rfl)

/-- Helper: the explicit-address loop of `NewCluster` commits the parsed
prefix and stops at the first failing entry. -/
theorem newClusterAux_prefixCommit (parse : String → Except String URL) :
    ∀ (pre : List String) (acc us : List URL) (v : String)
      (rest : List String) (e : String),
      ParseAllOk parse pre us → parse v = Except.error e →
      NewClusterExplicitAux parse acc (pre ++ v :: rest) = (acc ++ us, some e)
  | [], acc, us, v, rest, e, hpre, hv => by
    have hus : us = [] := hpre
    subst hus
    simp [NewClusterExplicitAux, hv]
  | p :: ps, acc, us, v, rest, e, hpre, hv => by
    obtain ⟨u, tail, hp, htail, hus⟩ := hpre
    subst hus
    simp only [List.cons_append, NewClusterExplicitAux, hp]
    have h2 := newClusterAux_prefixCommit parse ps (acc ++ [u]) tail v rest e htail hv
    simpa [List.append_assoc] using h2

/-- C2 (amended): with explicit addresses, a parse failure on any entry
makes `NewCluster` return an error, but the process-wide registry is left
holding exactly the successfully parsed prefix of addresses before the
failing entry (the previous registry having been cleared on entry) — a
partial commit that is observable whenever at least one earlier entry
parsed. -/
theorem C2_cluster_partial_commit (parse : String → Except String URL)
    (env : String) (pre : List String) (v : String) (rest : List String)
    (us : List URL) (e : String)
    (hpre : ParseAllOk parse pre us) (hv : parse v = Except.error e) :
    NewCluster parse env (pre ++ v :: rest) = (us, some e) := by
  have hne : (pre ++ v :: rest).isEmpty = false := by
    cases pre <;> simp
  rw [NewCluster]
  simp only [hne, Bool.false_eq_true, if_false]
  rw [newClusterAux_prefixCommit parse pre [] us v rest e hpre hv]
  simp

/-- C2 witness: one good address, then an entry with a non-numeric port:
the error is returned and the registry holds the one parsed address. -/
theorem C2_witness :
    ParseAllOk urlParse ["ws://a:8182"] [⟨"ws", "a:8182"⟩] ∧
    NewCluster urlParse "" ["ws://a:8182", "ws://c:bad"] =
      ([⟨"ws", "a:8182"⟩], some "invalid port") := by
  have hpre : ParseAllOk urlParse ["ws://a:8182"] [⟨"ws", "a:8182"⟩] :=
    ⟨⟨"ws", "a:8182"⟩, [], rfl, rfl, rfl⟩
  exact ⟨hpre,
    C2_cluster_partial_commit urlParse "" ["ws://a:8182"] "ws://c:bad" []
      [⟨"ws", "a:8182"⟩] "invalid port" hpre rfl⟩

/-- C2 counterexample: after `NewCluster` fails on the second address, the
registry observably holds the successfully parsed first address — a
non-empty prefix of parsed addresses remains, contradicting the claim that
no such prefix stays observable. -/
theorem C2_counterexample :
    NewCluster urlParse "" ["ws://a:8182", "ws://b:xyz"] =
      ([⟨"ws", "a:8182"⟩], some "invalid port") ∧
    ([⟨"ws", "a:8182"⟩] : List URL) ≠ [] := by
  exact ⟨rfl, by decide⟩

/-- C8 (amended): when the dial fails, `Reconnect` stores the nil
connection returned by the dialer and reports the dial error, leaving the
session with no socket; a subsequent `Exec` then faults on the nil socket
handle (`WriteMessage` dereferences a nil receiver) — it does not succeed,
but neither does it return an error — until a `Reconnect` succeeds, which
replaces the session's socket handle with the new socket. -/
theorem C8_reconnect (σ : Type) (dial : String → Except String σ)
    (c : ConnState σ) (urlStr : String) :
    (∀ e, dial urlStr = Except.error e →
      Reconnect dial c urlStr = (⟨none⟩, some e) ∧
        ∀ (writeErr : σ → Option String) (readResult : σ → GoRet),
          ExecOnSocket (⟨none⟩ : ConnState σ) writeErr readResult =
            ExecOutcome.nilDeref) ∧
    (∀ w, dial urlStr = Except.ok w →
      Reconnect dial c urlStr = (⟨some w⟩, none)) := by
  constructor
  · intro e he
    exact ⟨by simp [Reconnect, he], fun _ _ => rfl⟩
  · intro w hw
    simp [Reconnect, hw]

/-- C8 witness: a refused dial leaves no socket and a faulting `Exec`; the
successful-dial part is exercised with a second dialer. -/
theorem C8_witness :
    Reconnect (fun _ => (Except.error "dial tcp: connection refused" : Except String Nat))
      ⟨some 7⟩ "ws://h:8182" = (⟨none⟩, some "dial tcp: connection refused") ∧
    ExecOnSocket (⟨none⟩ : ConnState Nat) (fun _ => none)
      (fun _ => ⟨some "[]", none⟩) = ExecOutcome.nilDeref ∧
    Reconnect (fun _ => (Except.ok 9 : Except String Nat)) ⟨none⟩ "ws://h:8182" =
      (⟨some 9⟩, none) := by
  have h := (C8_reconnect Nat (fun _ => Except.error "dial tcp: connection refused")
    ⟨some 7⟩ "ws://h:8182").1 "dial tcp: connection refused" rfl
  exact ⟨h.1, h.2 _ _,
    (C8_reconnect Nat (fun _ => Except.ok 9) ⟨none⟩ "ws://h:8182").2 9 rfl⟩

/-- C8 counterexample: after a failed `Reconnect`, the next `Exec` does not
fail with a returned error as the claim states — it faults on the nil
socket handle (`ExecOutcome.nilDeref`, the Go nil-pointer dereference),
which is not an error return. -/
theorem C8_counterexample :
    (Reconnect (fun _ => (Except.error "dial tcp: connection refused" : Except String Nat))
      ⟨some 7⟩ "ws://u:8182").1 = ⟨none⟩ ∧
    ExecOnSocket (⟨none⟩ : ConnState Nat) (fun _ => none)
      (fun _ => ⟨some "ok", none⟩) = ExecOutcome.nilDeref ∧
    ExecOutcome.nilDeref.isErrRet = false :=
  ⟨rfl, rfl, rfl⟩

/-- Helper: along every terminating run of the read loop, a returned
non-nil error comes with nil data, whatever the accumulator and mode. -/
theorem readLoop_err_nil_data :
    ∀ (n : Nat) (evs : List NetEvent), evs.length ≤ n →
      ∀ (c : Conn) (acc : List String) (b : Bool) (d : Option String) (e : String),
        ReadResponseLoop c acc b evs = some ⟨d, some e⟩ → d = none := by
  intro n
  induction n with
  | zero =>
    intro evs hlen c acc b d e h
    have hnil : evs = [] := List.length_eq_zero.mp (Nat.le_zero.mp hlen)
    subst hnil
    simp [ReadResponseLoop] at h
  | succ n ih =>
    intro evs hlen c acc b d e h
    match evs with
    | [] => simp [ReadResponseLoop] at h
    | NetEvent.recvErr m :: rest =>
      simp [ReadResponseLoop] at h
      exact h.1.symm
    | NetEvent.recvBad m :: rest =>
      simp [ReadResponseLoop] at h
      exact h.1.symm
    | NetEvent.sendOk :: rest => simp [ReadResponseLoop] at h
    | NetEvent.sendErr m :: rest => simp [ReadResponseLoop] at h
    | NetEvent.recvFrame res :: rest =>
      by_cases h1 : res.status.code = StatusNoContent
      · rw [readLoop_noContent c acc b res rest h1] at h
        simp at h
      · by_cases h2 : res.status.code = StatusAuthenticate
        · cases ha : NewAuthInfo c.auth with
          | error e0 =>
            rw [readLoop_authFail c acc b res rest e0 h2 ha] at h
            simp at h
            exact h.1.symm
          | ok a =>
            match rest with
            | [] =>
              rw [readLoop_authOk_nil c acc b res a h2 ha] at h
              exact Option.noConfusion h
            | NetEvent.sendOk :: rest2 =>
              rw [readLoop_authOk_sendOk c acc b res rest2 a h2 ha] at h
              have hlen2 : rest2.length ≤ n := by
                simp at hlen
                omega
              exact ih rest2 hlen2 c [] false d e h
            | NetEvent.sendErr m :: rest2 =>
              rw [readLoop_authOk_sendErr c acc b res m rest2 a h2 ha] at h
              simp at h
              exact h.1.symm
            | NetEvent.recvErr m :: rest2 =>
              rw [readLoop_authOk_recvErrNext c acc b res m rest2 a h2 ha] at h
              exact Option.noConfusion h
            | NetEvent.recvBad m :: rest2 =>
              rw [readLoop_authOk_recvBadNext c acc b res m rest2 a h2 ha] at h
              exact Option.noConfusion h
            | NetEvent.recvFrame res2 :: rest2 =>
              rw [readLoop_authOk_recvFrameNext c acc b res res2 rest2 a h2 ha] at h
              exact Option.noConfusion h
        · by_cases h3 : res.status.code = StatusPartialContent
          · rw [readLoop_partialFrame c acc b res rest h3] at h
            cases hdec : unmarshalRawList res.result.data with
            | none =>
              rw [hdec] at h
              simp at h
              exact h.1.symm
            | some items =>
              rw [hdec] at h
              have hlen2 : rest.length ≤ n := by
                simp at hlen
                omega
              exact ih rest hlen2 c (acc ++ items) true d e h
          · by_cases h4 : res.status.code = StatusSuccess
            · rw [readLoop_success c acc b res rest h4] at h
              cases b with
              | false => simp at h
              | true =>
                cases hdec : unmarshalRawList res.result.data with
                | none =>
                  rw [hdec] at h
                  simp at h
                  exact h.1.symm
                | some items =>
                  rw [hdec] at h
                  simp at h
            · rw [readLoop_errStatus c acc b res rest h1 h2 h3 h4] at h
              simp at h
              exact h.1.symm

/-- C10: whenever `ReadResponse` returns a non-nil error — a socket read
failure, an undecodable frame, an undecodable result fragment, an
error-status frame, or a failed credential configuration during an
authentication replay — the returned data is nil: partially aggregated
items are never surfaced alongside an error. -/
theorem C10_error_implies_nil_data (c : Conn) (evs : List NetEvent)
    (d : Option String) (e : String)
    (h : ReadResponse c evs = some ⟨d, some e⟩) : d = none :=
  readLoop_err_nil_data evs.length evs le_rfl c [] false d e h

/-- C10 witness: a failing socket read returns the error with nil data. -/
theorem C10_witness :
    ReadResponse ⟨[], false⟩ [NetEvent.recvErr "read tcp: connection reset"] =
      some ⟨none, some "read tcp: connection reset"⟩ ∧
    (none : Option String) = none :=
  ⟨rfl, C10_error_implies_nil_data ⟨[], false⟩
    [NetEvent.recvErr "read tcp: connection reset"] none
    "read tcp: connection reset" rfl⟩

end Gremlin
